import Mathlib

/-!
Verification of the FOMC ingestion-alignment-decision workflow
(`src/fomc/fomc_workflow.py`, `fomc_database.py`, `fomc_fetchers.py`).

Dates are ISO `YYYY-MM-DD` strings in the source; Python compares them
lexicographically (`max`, `<=`, `!=`), which on that fixed-width format agrees
with chronological order, so dates are modelled as naturals.  Document tables
are association lists keyed by `release_date` (the SQL primary key); the
verdict table is a list of rows keyed by `statement_date`.
-/

namespace FOMC

abbrev Date := Nat

/-- One fetched document as produced by a fetcher in `fomc_fetchers.py`:
extracted text plus the release date parsed from the resolved canonical URL
(`new_release_date`), `none` when absent or unparseable. -/
structure FetchResult where
  content : String
  new_release_date : Option Date
deriving Repr, DecidableEq

/-- Output of `fetch_all_fomc_data`: the four per-type fetch results. -/
structure FetchedAll where
  statement : FetchResult
  minutes : FetchResult
  projection_note : FetchResult
  implementation_note : FetchResult
deriving Repr, DecidableEq

/-- A fetched page once the HTTP layer succeeded: the extracted article text
(empty when the selector finds nothing) and the 8-digit date parsed from the
canonical `og:url` (falling back to the request URL), `none` when the regex
does not match. -/
structure Page where
  text : String
  url_date : Option Date
deriving Repr, DecidableEq

/-- Outcome of the HTTP GET inside a fetcher: status 404, any other failure
(non-success status raised by `raise_for_status`, network error, parse error —
all caught by the fetcher's `except` block), or a parsed page. -/
inductive HttpOutcome where
  | notFound
  | failed
  | ok (page : Page)
deriving Repr, DecidableEq

/-- `StatementFetcher.fetch`: 404 and any exception both degrade to the absent
shape (empty content, no release date); on success the release date is taken
from the canonical URL. -/
def StatementFetcher.fetch : HttpOutcome → FetchResult
  | .notFound => { content := "", new_release_date := none }
  | .failed => { content := "", new_release_date := none }
  | .ok page => { content := page.text, new_release_date := page.url_date }

/-- `MinutesFetcher.fetch`: same 404 / exception handling as the statement
fetcher. -/
def MinutesFetcher.fetch : HttpOutcome → FetchResult
  | .notFound => { content := "", new_release_date := none }
  | .failed => { content := "", new_release_date := none }
  | .ok page => { content := page.text, new_release_date := page.url_date }

/-- `ProjectionNoteFetcher.fetch`. -/
def ProjectionNoteFetcher.fetch : HttpOutcome → FetchResult
  | .notFound => { content := "", new_release_date := none }
  | .failed => { content := "", new_release_date := none }
  | .ok page => { content := page.text, new_release_date := page.url_date }

/-- `ImplementationNoteFetcher.fetch`. -/
def ImplementationNoteFetcher.fetch : HttpOutcome → FetchResult
  | .notFound => { content := "", new_release_date := none }
  | .failed => { content := "", new_release_date := none }
  | .ok page => { content := page.text, new_release_date := page.url_date }

/-- `fetch_all_fomc_data`: the four document types fetched independently. -/
def fetch_all_fomc_data (s m p i : HttpOutcome) : FetchedAll :=
  { statement := StatementFetcher.fetch s
    minutes := MinutesFetcher.fetch m
    projection_note := ProjectionNoteFetcher.fetch p
    implementation_note := ImplementationNoteFetcher.fetch i }

/-- A document table (`monetory_policy.statements` etc.): rows keyed by
`release_date`, which is the table's primary key. -/
abbrev DocTable := List (Date × String)

/-- `INSERT ... VALUES (release_date, body) ON CONFLICT (release_date) DO
UPDATE SET body`: replace the row with the same key, else append a row. -/
def upsertDoc (d : Date) (body : String) : DocTable → DocTable
  | [] => [(d, body)]
  | (k, v) :: rest =>
      if k = d then (d, body) :: rest else (k, v) :: upsertDoc d body rest

/-- `_get_latest_date`: `SELECT release_date ... ORDER BY release_date DESC
LIMIT 1`, i.e. the maximum key, `none` on an empty table. -/
def latestDate : DocTable → Option Date
  | [] => none
  | (k, _) :: rest =>
      some (match latestDate rest with
            | none => k
            | some m => max k m)

/-- Row lookup by release date (used to state replacement properties). -/
def lookupDoc (d : Date) : DocTable → Option String
  | [] => none
  | (k, v) :: rest => if k = d then some v else lookupDoc d rest

/-- One row of `analysis.monetary_policies`: the persisted verdict, keyed by
`statement_date` (the table's primary key). -/
structure VerdictRow where
  statement_date : Date
  execution_date : Date
  implementation_date : Option Date
  projection_date : Option Date
  minutes_date : Option Date
  content : String
deriving Repr, DecidableEq

/-- A verdict as passed to the analysis step: `node_run_analysis` copies each
history dict and deletes its `execution_date` key. -/
structure HistoryItem where
  statement_date : Date
  implementation_date : Option Date
  projection_date : Option Date
  minutes_date : Option Date
  content : String
deriving Repr, DecidableEq

/-- Drop the `execution_date` field of a verdict row. -/
def stripExecutionDate (v : VerdictRow) : HistoryItem :=
  { statement_date := v.statement_date
    implementation_date := v.implementation_date
    projection_date := v.projection_date
    minutes_date := v.minutes_date
    content := v.content }

abbrev VerdictTable := List VerdictRow

/-- Insertion step for `ORDER BY execution_date DESC`. -/
def insertByExecDesc (v : VerdictRow) : VerdictTable → VerdictTable
  | [] => [v]
  | w :: rest =>
      if w.execution_date ≤ v.execution_date then v :: w :: rest
      else w :: insertByExecDesc v rest

/-- `ORDER BY execution_date DESC` on the verdict table. -/
def sortByExecDesc (t : VerdictTable) : VerdictTable :=
  t.foldr insertByExecDesc []

/-- `get_six_months_fomc_verdict`: `SELECT ... FROM analysis.monetary_policies
ORDER BY execution_date DESC LIMIT 6`. -/
def get_six_months_fomc_verdict (t : VerdictTable) : List VerdictRow :=
  (sortByExecDesc t).take 6

/-- `save_fomc_analysis`'s SQL: `INSERT ... ON CONFLICT (statement_date) DO
UPDATE SET execution_date, ..., content`: full overwrite of the row sharing
the key. -/
def upsertVerdict (row : VerdictRow) : VerdictTable → VerdictTable
  | [] => [row]
  | w :: rest =>
      if w.statement_date = row.statement_date then row :: rest
      else w :: upsertVerdict row rest

/-- Verdict lookup by anchor (statement) date. -/
def lookupVerdict (d : Date) : VerdictTable → Option VerdictRow
  | [] => none
  | w :: rest => if w.statement_date = d then some w else lookupVerdict d rest

/-- The storage state: the four document tables plus the verdict table. -/
structure DBState where
  statements : DocTable
  fomc_minutes : DocTable
  projection_notes : DocTable
  implementation_notes : DocTable
  monetary_policies : VerdictTable
deriving Repr, DecidableEq

/-- `is_valid_date` in `node_scrape_and_upsert`: the date must parse and not
lie after today; dates are modelled as well-formed, so the future check
remains. -/
def is_valid_date (d : Date) (today : Date) : Bool := d ≤ today

/-- Write-through of one fetched document into its table: upsert only when a
release date is present and `is_valid_date` accepts it (future dates are
fetched but never written). -/
def scrapeTable (item : FetchResult) (today : Date) (t : DocTable) : DocTable :=
  match item.new_release_date with
  | some d => if is_valid_date d today then upsertDoc d item.content t else t
  | none => t

/-- `node_scrape_and_upsert`: fetch results are written through to the four
document tables, each guarded by the future-date check; the verdict table is
untouched. -/
def node_scrape_and_upsert (today : Date) (fetched : FetchedAll) (db : DBState) :
    DBState :=
  { db with
    statements := scrapeTable fetched.statement today db.statements
    fomc_minutes := scrapeTable fetched.minutes today db.fomc_minutes
    projection_notes := scrapeTable fetched.projection_note today db.projection_notes
    implementation_notes :=
      scrapeTable fetched.implementation_note today db.implementation_notes }

/-- The dict built by `node_pull_db_state`: per-type latest dates, the latest
verdict (`history[0] if history else` the empty dict, modelled as `none`), and
the history list. -/
structure DBPull where
  minutes_date : Option Date
  statement_date : Option Date
  implementation_date : Option Date
  projection_date : Option Date
  verdict : Option VerdictRow
  history : List VerdictRow
deriving Repr, DecidableEq

/-- `node_pull_db_state`. -/
def node_pull_db_state (db : DBState) : DBPull :=
  let history := get_six_months_fomc_verdict db.monetary_policies
  { minutes_date := latestDate db.fomc_minutes
    statement_date := latestDate db.statements
    implementation_date := latestDate db.implementation_notes
    projection_date := latestDate db.projection_notes
    verdict := history.head?
    history := history }

/-- `db_state["verdict"].get("statement_date")`: `None` on the empty dict. -/
def verdictStatementDate : Option VerdictRow → Option Date
  | none => none
  | some v => some v.statement_date

/-- `db_state["verdict"].get("minutes_date")`: `None` on the empty dict, and
the row's (possibly null) minutes date otherwise. -/
def verdictMinutesDate : Option VerdictRow → Option Date
  | none => none
  | some v => v.minutes_date

/-- The aligned cycle built by `node_check_logic`. -/
structure AlignedData where
  max_release_date : Date
  minutes_release_date : Option Date
  minutes_content : Option String
  statement_release_date : Option Date
  statement : Option String
  implementation_note_release_date : Option Date
  implementation_note : Option String
  projection_note_release_date : Option Date
  projection_note : Option String
  history : List VerdictRow
deriving Repr, DecidableEq

/-- `valid_dates = [d for d in [d_min, d_stmt, d_impl, d_proj] if d]`. -/
def validDates (d_min d_stmt d_impl d_proj : Option Date) : List Date :=
  ([d_min, d_stmt, d_impl, d_proj]).filterMap id

/-- Python `max` over a list, `none` when the list is empty (the code
early-returns before calling `max` in that case). -/
def maxOfList : List Date → Option Date
  | [] => none
  | d :: rest => some (rest.foldl max d)

/-- `get_content_from_fetch`: the fetched content, but only when the freshly
fetched item's `new_release_date` equals the target date. -/
def get_content_from_fetch (item : FetchResult) (target : Date) : Option String :=
  if item.new_release_date = some target then some item.content else none

/-- The `aligned` dict of `node_check_logic`: per type, the stored latest date
when it equals the max, and the fetched content when additionally the fetch
carries the max date. -/
def alignData (pull : DBPull) (fetched : FetchedAll) (max_date : Date) :
    AlignedData :=
  { max_release_date := max_date
    minutes_release_date :=
      if pull.minutes_date = some max_date then pull.minutes_date else none
    minutes_content :=
      if pull.minutes_date = some max_date then
        get_content_from_fetch fetched.minutes max_date
      else none
    statement_release_date :=
      if pull.statement_date = some max_date then pull.statement_date else none
    statement :=
      if pull.statement_date = some max_date then
        get_content_from_fetch fetched.statement max_date
      else none
    implementation_note_release_date :=
      if pull.implementation_date = some max_date then pull.implementation_date
      else none
    implementation_note :=
      if pull.implementation_date = some max_date then
        get_content_from_fetch fetched.implementation_note max_date
      else none
    projection_note_release_date :=
      if pull.projection_date = some max_date then pull.projection_date else none
    projection_note :=
      if pull.projection_date = some max_date then
        get_content_from_fetch fetched.projection_note max_date
      else none
    history := pull.history }

/-- The decision block of `node_check_logic` (lines 228-241): minutes first,
statement only as a fallback when no minutes slot is present. -/
def noveltyRun (aligned : AlignedData) (verdict : Option VerdictRow) : Bool :=
  match aligned.minutes_release_date with
  | none =>
      match aligned.statement_release_date with
      | some s => decide (some s ≠ verdictStatementDate verdict)
      | none => false
  | some m => decide (some m ≠ verdictMinutesDate verdict)

/-- The reason string accompanying the decision. -/
def noveltyReason (aligned : AlignedData) (verdict : Option VerdictRow) : String :=
  if noveltyRun aligned verdict then
    match aligned.minutes_release_date with
    | some m => "New Minutes (" ++ toString m ++ ")"
    | none =>
        match aligned.statement_release_date with
        | some s => "New Statement (" ++ toString s ++ ")"
        | none => "No new updates"
  else "No new updates"

/-- Result of `node_check_logic`: either the early all-absent return (no data
in the DB, run skipped) or an aligned cycle with the run/skip decision and its
reason. -/
inductive CheckResult where
  | noData
  | checked (aligned : AlignedData) (should_run : Bool) (reason : String)
deriving Repr, DecidableEq

/-- `node_check_logic`: compute the max over the four stored latest dates
(early skip when none exists), build the aligned cycle, and decide novelty
against the last saved verdict. -/
def node_check_logic (pull : DBPull) (fetched : FetchedAll) : CheckResult :=
  match maxOfList
      (validDates pull.minutes_date pull.statement_date
        pull.implementation_date pull.projection_date) with
  | none => .noData
  | some max_date =>
      .checked (alignData pull fetched max_date)
        (noveltyRun (alignData pull fetched max_date) pull.verdict)
        (noveltyReason (alignData pull fetched max_date) pull.verdict)

/-- History cleaning in `node_run_analysis`: every item loses its
`execution_date` before being serialized into the prompt. -/
def clean_history (raw : List VerdictRow) : List HistoryItem :=
  raw.map stripExecutionDate

/-- `node_run_analysis`: the language-model call is abstracted as a function
from the cleaned history and the aligned cycle to an optional parsed result
(`none` models any invocation / extraction / parse failure, all caught by the
node's `except` block). -/
def node_run_analysis (llm : List HistoryItem → AlignedData → Option String)
    (aligned : AlignedData) : Option String :=
  llm (clean_history aligned.history) aligned

/-- The run's user-visible outcome (`final_output`). -/
structure FinalOutput where
  status : String
  message : String
deriving Repr, DecidableEq

/-- Result of `node_save_results`: the verdict table afterwards and the
`final_output` it sets (`none` when the node returns the empty update because
there was no analysis result). -/
structure SaveResult where
  verdicts : VerdictTable
  final_output : Option FinalOutput
deriving Repr, DecidableEq

/-- `node_save_results`: nothing happens without an analysis result; with one,
the verdict row is keyed by the aligned statement release date — if that date
is absent the node reports the missing-statement error, and otherwise it
upserts and reports success whether or not the upsert succeeded (`upsertOk`
models `_execute_upsert`'s return value; on failure the transaction rolls back
and the table is unchanged). -/
def node_save_results (upsertOk : Bool) (today : Date) (result : Option String)
    (aligned : AlignedData) (verdicts : VerdictTable) : SaveResult :=
  match result with
  | none => { verdicts := verdicts, final_output := none }
  | some content =>
      match aligned.statement_release_date with
      | some s =>
          let row : VerdictRow :=
            { statement_date := s
              execution_date := today
              implementation_date := aligned.implementation_note_release_date
              projection_date := aligned.projection_note_release_date
              minutes_date := aligned.minutes_release_date
              content := content }
          { verdicts := if upsertOk then upsertVerdict row verdicts else verdicts
            final_output := some { status := "success", message := "Analysis saved" } }
      | none =>
          { verdicts := verdicts
            final_output :=
              some { status := "error", message := "Missing statement date" } }

/-- Result of one full workflow invocation. -/
structure RunResult where
  db : DBState
  should_run : Bool
  final_output : FinalOutput
deriving Repr, DecidableEq

/-- The compiled graph: scrape-and-upsert, pull DB state, check logic, then
conditionally run the analysis and save.  An analysis failure sets the error
status (`node_run_analysis`'s except branch) and `node_save_results` then
leaves it in place. -/
def runCycle (llm : List HistoryItem → AlignedData → Option String)
    (upsertOk : Bool) (today : Date) (fetched : FetchedAll) (db0 : DBState) :
    RunResult :=
  let db1 := node_scrape_and_upsert today fetched db0
  let pull := node_pull_db_state db1
  match node_check_logic pull fetched with
  | .noData =>
      { db := db1, should_run := false
        final_output := { status := "skipped", message := "No data found" } }
  | .checked aligned run _reason =>
      if run then
        match node_run_analysis llm aligned with
        | none =>
            { db := db1, should_run := true
              final_output := { status := "error", message := "analysis failed" } }
        | some content =>
            let saved :=
              node_save_results upsertOk today (some content) aligned
                db1.monetary_policies
            { db := { db1 with monetary_policies := saved.verdicts }
              should_run := true
              final_output :=
                saved.final_output.getD
                  { status := "success", message := "Analysis saved" } }
      else
        { db := db1, should_run := false
          final_output := { status := "skipped", message := "Database up to date" } }

end FOMC

namespace FOMC

/-! ### Helper lemmas: document tables -/

theorem upsertDoc_idem (d : Date) (b : String) (t : DocTable) :
    upsertDoc d b (upsertDoc d b t) = upsertDoc d b t := by
  induction t with
  | nil => simp [upsertDoc]
  | cons p rest ih =>
      obtain ⟨k, v⟩ := p
      by_cases hk : k = d <;> simp [upsertDoc, hk, ih]

theorem mem_upsertDoc {p : Date × String} {d : Date} {b : String} {t : DocTable}
    (h : p ∈ upsertDoc d b t) : p = (d, b) ∨ p ∈ t := by
  induction t with
  | nil => simpa [upsertDoc] using h
  | cons q rest ih =>
      obtain ⟨k, v⟩ := q
      by_cases hk : k = d
      · simp only [upsertDoc, hk, if_pos rfl] at h
        rcases List.mem_cons.mp h with h | h
        · exact Or.inl h
        · exact Or.inr (List.mem_cons_of_mem _ h)
      · simp only [upsertDoc, if_neg hk] at h
        rcases List.mem_cons.mp h with h | h
        · exact Or.inr (h ▸ List.mem_cons_self _ _)
        · rcases ih h with h' | h'
          · exact Or.inl h'
          · exact Or.inr (List.mem_cons_of_mem _ h')

theorem scrapeTable_idem (item : FetchResult) (today : Date) (t : DocTable) :
    scrapeTable item today (scrapeTable item today t) = scrapeTable item today t := by
  cases h : item.new_release_date with
  | none => simp [scrapeTable, h]
  | some d =>
      by_cases hv : is_valid_date d today
      · simp [scrapeTable, h, hv, upsertDoc_idem]
      · simp [scrapeTable, h, hv]

theorem mem_scrapeTable {p : Date × String} {item : FetchResult} {today : Date}
    {t : DocTable} (h : p ∈ scrapeTable item today t) :
    (∃ d, item.new_release_date = some d ∧ d ≤ today ∧ p = (d, item.content)) ∨ p ∈ t := by
  cases hd : item.new_release_date with
  | none => simp only [scrapeTable, hd] at h; exact Or.inr h
  | some d =>
      by_cases hv : is_valid_date d today
      · simp only [scrapeTable, hd, if_pos hv] at h
        rcases mem_upsertDoc h with h' | h'
        · exact Or.inl ⟨d, rfl, by simpa [is_valid_date] using hv, h'⟩
        · exact Or.inr h'
      · simp only [scrapeTable, hd, if_neg hv] at h
        exact Or.inr h

theorem latestDate_mem {t : DocTable} {d : Date} (h : latestDate t = some d) :
    ∃ p ∈ t, p.1 = d := by
  induction t generalizing d with
  | nil => simp [latestDate] at h
  | cons q rest ih =>
      obtain ⟨k, v⟩ := q
      cases hr : latestDate rest with
      | none =>
          simp only [latestDate, hr, Option.some.injEq] at h
          exact ⟨(k, v), List.mem_cons_self _ _, h⟩
      | some m =>
          simp only [latestDate, hr, Option.some.injEq] at h
          by_cases hkm : m ≤ k
          · refine ⟨(k, v), List.mem_cons_self _ _, ?_⟩
            simpa [max_eq_left hkm] using h
          · obtain ⟨p, hp, hpd⟩ := ih hr
            refine ⟨p, List.mem_cons_of_mem _ hp, ?_⟩
            have hmax : max k m = m := max_eq_right (Nat.le_of_not_le hkm)
            rw [hpd, ← h, hmax]

theorem latestDate_le {t : DocTable} {d today : Date}
    (h : latestDate t = some d) (hall : ∀ p ∈ t, p.1 ≤ today) : d ≤ today := by
  obtain ⟨p, hp, hpd⟩ := latestDate_mem h
  exact hpd ▸ hall p hp

/-! ### Helper lemmas: max over the stored dates -/

theorem foldl_max_init_le (l : List Date) (a : Date) : a ≤ l.foldl max a := by
  induction l generalizing a with
  | nil => exact Nat.le_refl a
  | cons x xs ih => exact Nat.le_trans (Nat.le_max_left a x) (ih (max a x))

theorem foldl_max_le_of_mem {l : List Date} {d : Date} (h : d ∈ l) (a : Date) :
    d ≤ l.foldl max a := by
  induction l generalizing a with
  | nil => cases h
  | cons x xs ih =>
      rcases List.mem_cons.mp h with h | h
      · subst h
        simp only [List.foldl]
        exact Nat.le_trans (Nat.le_max_right a d) (foldl_max_init_le xs (max a d))
      · exact ih h (max a x)

theorem foldl_max_mem_or (l : List Date) (a : Date) :
    l.foldl max a = a ∨ l.foldl max a ∈ l := by
  induction l generalizing a with
  | nil => exact Or.inl rfl
  | cons x xs ih =>
      rcases ih (max a x) with h | h
      · by_cases hax : x ≤ a
        · simp only [List.foldl] at *
          rw [h, max_eq_left hax]
          exact Or.inl rfl
        · simp only [List.foldl] at *
          rw [h, max_eq_right (Nat.le_of_not_le hax)]
          exact Or.inr (List.mem_cons_self _ _)
      · exact Or.inr (List.mem_cons_of_mem _ h)

theorem maxOfList_mem {l : List Date} {d : Date} (h : maxOfList l = some d) :
    d ∈ l := by
  cases l with
  | nil => simp [maxOfList] at h
  | cons x xs =>
      simp only [maxOfList, Option.some.injEq] at h
      rcases foldl_max_mem_or xs x with h' | h'
      · exact (h ▸ h') ▸ List.mem_cons_self _ _
      · exact h ▸ List.mem_cons_of_mem _ h'

theorem le_of_mem_maxOfList {l : List Date} {d m : Date}
    (hm : maxOfList l = some m) (hd : d ∈ l) : d ≤ m := by
  cases l with
  | nil => cases hd
  | cons x xs =>
      simp only [maxOfList, Option.some.injEq] at hm
      rcases List.mem_cons.mp hd with h | h
      · exact hm ▸ h ▸ foldl_max_init_le xs x
      · exact hm ▸ foldl_max_le_of_mem h x

theorem maxOfList_eq_none_iff (l : List Date) : maxOfList l = none ↔ l = [] := by
  cases l <;> simp [maxOfList]

/-! ### Helper lemmas: verdict table -/

theorem mem_upsertVerdict {v row : VerdictRow} {t : VerdictTable}
    (h : v ∈ upsertVerdict row t) : v = row ∨ v ∈ t := by
  induction t with
  | nil => simpa [upsertVerdict] using h
  | cons w rest ih =>
      by_cases hw : w.statement_date = row.statement_date
      · simp only [upsertVerdict, if_pos hw] at h
        rcases List.mem_cons.mp h with h | h
        · exact Or.inl h
        · exact Or.inr (List.mem_cons_of_mem _ h)
      · simp only [upsertVerdict, if_neg hw] at h
        rcases List.mem_cons.mp h with h | h
        · exact Or.inr (h ▸ List.mem_cons_self _ _)
        · rcases ih h with h' | h'
          · exact Or.inl h'
          · exact Or.inr (List.mem_cons_of_mem _ h')

theorem row_mem_upsertVerdict (row : VerdictRow) (t : VerdictTable) :
    row ∈ upsertVerdict row t := by
  induction t with
  | nil => simp [upsertVerdict]
  | cons w rest ih =>
      by_cases hw : w.statement_date = row.statement_date
      · simp [upsertVerdict, hw]
      · simp only [upsertVerdict, if_neg hw]
        exact List.mem_cons_of_mem _ ih

theorem lookupVerdict_upsert_self (row : VerdictRow) (t : VerdictTable) :
    lookupVerdict row.statement_date (upsertVerdict row t) = some row := by
  induction t with
  | nil => simp [upsertVerdict, lookupVerdict]
  | cons w rest ih =>
      by_cases hw : w.statement_date = row.statement_date
      · simp [upsertVerdict, hw, lookupVerdict]
      · simp [upsertVerdict, hw, lookupVerdict, ih]

theorem lookupVerdict_upsert_other {k : Date} {row : VerdictRow}
    (hk : k ≠ row.statement_date) (t : VerdictTable) :
    lookupVerdict k (upsertVerdict row t) = lookupVerdict k t := by
  induction t with
  | nil => simp [upsertVerdict, lookupVerdict, Ne.symm hk]
  | cons w rest ih =>
      by_cases hw : w.statement_date = row.statement_date
      · have hwk : ¬ w.statement_date = k := fun h => hk (h ▸ hw)
        simp [upsertVerdict, hw, lookupVerdict, hwk, Ne.symm hk]
      · by_cases hwk : w.statement_date = k
        · simp [upsertVerdict, hw, lookupVerdict, hwk, hk]
        · simp [upsertVerdict, hw, lookupVerdict, hwk, ih]


/-! ### Helper lemmas: verdict ordering by execution date -/

theorem insertByExecDesc_perm (v : VerdictRow) (l : VerdictTable) :
    List.Perm (insertByExecDesc v l) (v :: l) := by
  induction l with
  | nil => exact List.Perm.refl _
  | cons w rest ih =>
      simp only [insertByExecDesc]
      split
      · exact List.Perm.refl _
      · exact (List.Perm.cons w ih).trans (List.Perm.swap v w rest)

theorem sortByExecDesc_perm (t : VerdictTable) :
    List.Perm (sortByExecDesc t) t := by
  induction t with
  | nil => exact List.Perm.refl _
  | cons v rest ih =>
      simp only [sortByExecDesc, List.foldr] at *
      exact (insertByExecDesc_perm v _).trans (ih.cons v)

theorem pairwise_insertByExecDesc {v : VerdictRow} {l : VerdictTable}
    (h : l.Pairwise (fun a b => b.execution_date ≤ a.execution_date)) :
    (insertByExecDesc v l).Pairwise
      (fun a b => b.execution_date ≤ a.execution_date) := by
  induction l with
  | nil => simp [insertByExecDesc]
  | cons w rest ih =>
      rcases List.pairwise_cons.mp h with ⟨hw, hrest⟩
      simp only [insertByExecDesc]
      by_cases hle : w.execution_date ≤ v.execution_date
      · rw [if_pos hle]
        refine List.pairwise_cons.mpr ⟨?_, h⟩
        intro b hb
        rcases List.mem_cons.mp hb with hb | hb
        · exact hb ▸ hle
        · exact Nat.le_trans (hw b hb) hle
      · rw [if_neg hle]
        refine List.pairwise_cons.mpr ⟨?_, ih hrest⟩
        intro b hb
        rcases List.mem_cons.mp ((insertByExecDesc_perm v rest).mem_iff.mp hb) with hb | hb
        · exact hb ▸ Nat.le_of_lt (Nat.lt_of_not_le hle)
        · exact hw b hb

theorem pairwise_sortByExecDesc (t : VerdictTable) :
    (sortByExecDesc t).Pairwise (fun a b => b.execution_date ≤ a.execution_date) := by
  induction t with
  | nil => simp [sortByExecDesc]
  | cons v rest ih =>
      simp only [sortByExecDesc, List.foldr] at *
      exact pairwise_insertByExecDesc ih

theorem head?_take_six (l : List VerdictRow) : (l.take 6).head? = l.head? := by
  cases l <;> rfl

theorem head_sorted_ge {x : VerdictRow} {xs : VerdictTable}
    (h : (x :: xs).Pairwise (fun a b => b.execution_date ≤ a.execution_date)) :
    ∀ y ∈ x :: xs, y.execution_date ≤ x.execution_date := by
  intro y hy
  rcases List.mem_cons.mp hy with hy | hy
  · exact hy ▸ Nat.le_refl _
  · exact (List.pairwise_cons.mp h).1 y hy

/-- After upserting a verdict row strictly fresher (by execution date) than
every stored row, that row heads the execution-ordered listing. -/
theorem head_sort_upsert_of_lt {row : VerdictRow} {t : VerdictTable}
    (h : ∀ v ∈ t, v.execution_date < row.execution_date) :
    (sortByExecDesc (upsertVerdict row t)).head? = some row := by
  have hmem : row ∈ sortByExecDesc (upsertVerdict row t) :=
    (sortByExecDesc_perm _).mem_iff.mpr (row_mem_upsertVerdict row t)
  have hpw := pairwise_sortByExecDesc (upsertVerdict row t)
  cases hs : sortByExecDesc (upsertVerdict row t) with
  | nil => rw [hs] at hmem; cases hmem
  | cons x xs =>
      rw [hs] at hmem hpw
      have hxle : row.execution_date ≤ x.execution_date :=
        head_sorted_ge hpw row hmem
      have hxmem : x ∈ upsertVerdict row t :=
        (sortByExecDesc_perm _).mem_iff.mp (hs ▸ List.mem_cons_self x xs)
      rcases mem_upsertVerdict hxmem with hx | hx
      · simp [hx]
      · exact absurd (Nat.lt_of_lt_of_le (h x hx) hxle) (Nat.lt_irrefl _)


/-! ### Characterisation of the check-logic node -/

theorem noveltyRun_iff (aligned : AlignedData) (verdict : Option VerdictRow) :
    noveltyRun aligned verdict = true ↔
      ((∃ m, aligned.minutes_release_date = some m ∧
             verdictMinutesDate verdict ≠ some m) ∨
       (aligned.minutes_release_date = none ∧
        ∃ s, aligned.statement_release_date = some s ∧
             verdictStatementDate verdict ≠ some s)) := by
  unfold noveltyRun
  cases hm : aligned.minutes_release_date with
  | some m =>
      rw [decide_eq_true_eq]
      constructor
      · intro h
        exact Or.inl ⟨m, rfl, fun hc => h hc.symm⟩
      · rintro (⟨m', hm', hne⟩ | ⟨hnone, _⟩)
        · injection hm' with hmm
          subst hmm
          exact fun hc => hne hc.symm
        · cases hnone
  | none =>
      cases hs : aligned.statement_release_date with
      | some s =>
          rw [decide_eq_true_eq]
          constructor
          · intro h
            exact Or.inr ⟨rfl, s, rfl, fun hc => h hc.symm⟩
          · rintro (⟨m', hm', _⟩ | ⟨_, s', hs', hne⟩)
            · cases hm'
            · injection hs' with hss
              subst hss
              exact fun hc => hne hc.symm
      | none =>
          simp

theorem node_check_logic_checked {pull : DBPull} {fetched : FetchedAll}
    {aligned : AlignedData} {run : Bool} {reason : String}
    (h : node_check_logic pull fetched = .checked aligned run reason) :
    ∃ md, maxOfList (validDates pull.minutes_date pull.statement_date
        pull.implementation_date pull.projection_date) = some md ∧
      aligned = alignData pull fetched md ∧
      run = noveltyRun (alignData pull fetched md) pull.verdict ∧
      reason = noveltyReason (alignData pull fetched md) pull.verdict := by
  unfold node_check_logic at h
  split at h
  · cases h
  · next md hmax =>
      injection h with h1 h2 h3
      exact ⟨md, hmax, h1.symm, h2.symm, h3.symm⟩


/-! ### Claim theorems -/

/-- C1: for every aligned cycle produced by `node_check_logic`, the decision
is `run` iff either the minutes slot is present with a date differing from the
last-saved verdict's minutes date, or no minutes slot is present and the
statement slot is present with a date differing from the last-saved verdict's
statement date; the statement is ignored whenever minutes are present, and in
every other case the outcome is `skip`. -/
theorem novelty_decision_priority
    (pull : DBPull) (fetched : FetchedAll) (aligned : AlignedData)
    (run : Bool) (reason : String)
    (h : node_check_logic pull fetched = .checked aligned run reason) :
    run = true ↔
      ((∃ m, aligned.minutes_release_date = some m ∧
             verdictMinutesDate pull.verdict ≠ some m) ∨
       (aligned.minutes_release_date = none ∧
        ∃ s, aligned.statement_release_date = some s ∧
             verdictStatementDate pull.verdict ≠ some s)) := by
  obtain ⟨md, hmax, ha, hr, _⟩ := node_check_logic_checked h
  subst ha
  rw [hr]
  exact noveltyRun_iff (alignData pull fetched md) pull.verdict

/-- Witness for C1: a cycle whose minutes slot is dated 5 while no verdict was
ever saved decides `run`. -/
theorem novelty_decision_priority_witness :
    node_check_logic
        { minutes_date := some 5, statement_date := none,
          implementation_date := none, projection_date := none,
          verdict := none, history := [] }
        { statement := { content := "", new_release_date := none },
          minutes := { content := "", new_release_date := none },
          projection_note := { content := "", new_release_date := none },
          implementation_note := { content := "", new_release_date := none } }
      = .checked
        { max_release_date := 5, minutes_release_date := some 5,
          minutes_content := none, statement_release_date := none,
          statement := none, implementation_note_release_date := none,
          implementation_note := none, projection_note_release_date := none,
          projection_note := none, history := [] }
        true "New Minutes (5)" ∧
    (true = true ↔
      ((∃ m, (some 5 : Option Date) = some m ∧
             verdictMinutesDate none ≠ some m) ∨
       ((some 5 : Option Date) = none ∧
        ∃ s, (none : Option Date) = some s ∧
             verdictStatementDate none ≠ some s))) :=
  ⟨by decide,
   novelty_decision_priority
     { minutes_date := some 5, statement_date := none,
       implementation_date := none, projection_date := none,
       verdict := none, history := [] }
     { statement := { content := "", new_release_date := none },
       minutes := { content := "", new_release_date := none },
       projection_note := { content := "", new_release_date := none },
       implementation_note := { content := "", new_release_date := none } }
     { max_release_date := 5, minutes_release_date := some 5,
       minutes_content := none, statement_release_date := none,
       statement := none, implementation_note_release_date := none,
       implementation_note := none, projection_note_release_date := none,
       projection_note := none, history := [] }
     true "New Minutes (5)" (by decide)⟩

/-- C9: for every document type, a 404 response and any other fetch failure
both yield the absent result (no release date, empty body) instead of an
exception, and in `fetch_all_fomc_data` each type's result depends only on its
own source's outcome, so one source's failure never affects the other three. -/
theorem fetch_failures_degrade_and_are_isolated :
    (StatementFetcher.fetch .notFound
        = { content := "", new_release_date := none } ∧
     StatementFetcher.fetch .failed
        = { content := "", new_release_date := none } ∧
     MinutesFetcher.fetch .notFound
        = { content := "", new_release_date := none } ∧
     MinutesFetcher.fetch .failed
        = { content := "", new_release_date := none } ∧
     ProjectionNoteFetcher.fetch .notFound
        = { content := "", new_release_date := none } ∧
     ProjectionNoteFetcher.fetch .failed
        = { content := "", new_release_date := none } ∧
     ImplementationNoteFetcher.fetch .notFound
        = { content := "", new_release_date := none } ∧
     ImplementationNoteFetcher.fetch .failed
        = { content := "", new_release_date := none }) ∧
    (∀ s m p i m' p' i',
        (fetch_all_fomc_data s m p i).statement
          = (fetch_all_fomc_data s m' p' i').statement) ∧
    (∀ s m p i s' p' i',
        (fetch_all_fomc_data s m p i).minutes
          = (fetch_all_fomc_data s' m p' i').minutes) ∧
    (∀ s m p i s' m' i',
        (fetch_all_fomc_data s m p i).projection_note
          = (fetch_all_fomc_data s' m' p i').projection_note) ∧
    (∀ s m p i s' m' p',
        (fetch_all_fomc_data s m p i).implementation_note
          = (fetch_all_fomc_data s' m' p' i).implementation_note) :=
  ⟨⟨rfl, rfl, rfl, rfl, rfl, rfl, rfl, rfl⟩,
   fun _ _ _ _ _ _ _ => rfl, fun _ _ _ _ _ _ _ => rfl,
   fun _ _ _ _ _ _ _ => rfl, fun _ _ _ _ _ _ _ => rfl⟩


theorem validDates_nil_iff (a b c d : Option Date) :
    validDates a b c d = [] ↔ a = none ∧ b = none ∧ c = none ∧ d = none := by
  cases a <;> cases b <;> cases c <;> cases d <;> simp [validDates]

theorem check_noData_iff (pull : DBPull) (fetched : FetchedAll) :
    node_check_logic pull fetched = .noData ↔
      (pull.minutes_date = none ∧ pull.statement_date = none ∧
       pull.implementation_date = none ∧ pull.projection_date = none) := by
  unfold node_check_logic
  cases hmax : maxOfList (validDates pull.minutes_date pull.statement_date
      pull.implementation_date pull.projection_date) with
  | none =>
      constructor
      · intro _
        exact (validDates_nil_iff _ _ _ _).mp ((maxOfList_eq_none_iff _).mp hmax)
      · intro _
        rfl
  | some md =>
      constructor
      · intro hc
        cases hc
      · intro hall
        have hnil : validDates pull.minutes_date pull.statement_date
            pull.implementation_date pull.projection_date = [] :=
          (validDates_nil_iff _ _ _ _).mpr hall
        rw [hnil] at hmax
        simp [maxOfList] at hmax

theorem runCycle_noData {llm : List HistoryItem → AlignedData → Option String}
    {upsertOk : Bool} {today : Date} {fetched : FetchedAll} {db0 : DBState}
    (h : node_check_logic (node_pull_db_state (node_scrape_and_upsert today fetched db0))
        fetched = .noData) :
    runCycle llm upsertOk today fetched db0
      = { db := node_scrape_and_upsert today fetched db0, should_run := false,
          final_output := { status := "skipped", message := "No data found" } } := by
  simp only [runCycle]
  rw [h]

/-- C2: the aligned target date is the maximum over the document types' latest
stored release dates (it is one of them and bounds them all); a type's slot is
kept only when its latest date equals the target and is knocked out to the
absent pair otherwise; and when no latest date exists at all the run ends as
`skip` without reaching alignment or analysis. -/
theorem alignment_target_and_knockout (pull : DBPull) (fetched : FetchedAll) :
    ((node_check_logic pull fetched = .noData) ↔
      (pull.minutes_date = none ∧ pull.statement_date = none ∧
       pull.implementation_date = none ∧ pull.projection_date = none)) ∧
    (∀ llm upsertOk today db0,
        node_check_logic (node_pull_db_state (node_scrape_and_upsert today fetched db0))
            fetched = .noData →
        (runCycle llm upsertOk today fetched db0).should_run = false ∧
        (runCycle llm upsertOk today fetched db0).final_output
          = { status := "skipped", message := "No data found" }) ∧
    (∀ aligned run reason,
        node_check_logic pull fetched = .checked aligned run reason →
        (aligned.max_release_date ∈ validDates pull.minutes_date pull.statement_date
            pull.implementation_date pull.projection_date ∧
         (∀ d ∈ validDates pull.minutes_date pull.statement_date
            pull.implementation_date pull.projection_date,
            d ≤ aligned.max_release_date)) ∧
        ((pull.minutes_date = some aligned.max_release_date →
            aligned.minutes_release_date = some aligned.max_release_date) ∧
         (pull.minutes_date ≠ some aligned.max_release_date →
            aligned.minutes_release_date = none ∧ aligned.minutes_content = none)) ∧
        ((pull.statement_date = some aligned.max_release_date →
            aligned.statement_release_date = some aligned.max_release_date) ∧
         (pull.statement_date ≠ some aligned.max_release_date →
            aligned.statement_release_date = none ∧ aligned.statement = none)) ∧
        ((pull.implementation_date = some aligned.max_release_date →
            aligned.implementation_note_release_date = some aligned.max_release_date) ∧
         (pull.implementation_date ≠ some aligned.max_release_date →
            aligned.implementation_note_release_date = none ∧
            aligned.implementation_note = none)) ∧
        ((pull.projection_date = some aligned.max_release_date →
            aligned.projection_note_release_date = some aligned.max_release_date) ∧
         (pull.projection_date ≠ some aligned.max_release_date →
            aligned.projection_note_release_date = none ∧
            aligned.projection_note = none))) := by
  refine ⟨check_noData_iff pull fetched, ?_, ?_⟩
  · intro llm upsertOk today db0 h
    rw [runCycle_noData h]
    exact ⟨rfl, rfl⟩
  · intro aligned run reason h
    obtain ⟨md, hmax, ha, _, _⟩ := node_check_logic_checked h
    subst ha
    have hmd : (alignData pull fetched md).max_release_date = md := rfl
    rw [hmd]
    refine ⟨⟨maxOfList_mem hmax, fun d hd => le_of_mem_maxOfList hmax hd⟩, ?_, ?_, ?_, ?_⟩
    · by_cases hc : pull.minutes_date = some md
      · exact ⟨fun _ => by simp [alignData, hc], fun hn => absurd hc hn⟩
      · exact ⟨fun hcc => absurd hcc hc, fun _ => by simp [alignData, hc]⟩
    · by_cases hc : pull.statement_date = some md
      · exact ⟨fun _ => by simp [alignData, hc], fun hn => absurd hc hn⟩
      · exact ⟨fun hcc => absurd hcc hc, fun _ => by simp [alignData, hc]⟩
    · by_cases hc : pull.implementation_date = some md
      · exact ⟨fun _ => by simp [alignData, hc], fun hn => absurd hc hn⟩
      · exact ⟨fun hcc => absurd hcc hc, fun _ => by simp [alignData, hc]⟩
    · by_cases hc : pull.projection_date = some md
      · exact ⟨fun _ => by simp [alignData, hc], fun hn => absurd hc hn⟩
      · exact ⟨fun hcc => absurd hcc hc, fun _ => by simp [alignData, hc]⟩

/-- Witness for C2: with every stored date absent the decision branch reports
no data, and with a single stored minutes date 5 the target is 5. -/
theorem alignment_target_and_knockout_witness :
    ((node_check_logic
        { minutes_date := none, statement_date := none, implementation_date := none,
          projection_date := none, verdict := none, history := [] }
        { statement := { content := "", new_release_date := none },
          minutes := { content := "", new_release_date := none },
          projection_note := { content := "", new_release_date := none },
          implementation_note := { content := "", new_release_date := none } }
          = .noData) ↔
      ((none : Option Date) = none ∧ (none : Option Date) = none ∧
       (none : Option Date) = none ∧ (none : Option Date) = none)) ∧
    ((5 : Date) ∈ validDates (some 5) none none none) :=
  ⟨(alignment_target_and_knockout
      { minutes_date := none, statement_date := none, implementation_date := none,
        projection_date := none, verdict := none, history := [] }
      { statement := { content := "", new_release_date := none },
        minutes := { content := "", new_release_date := none },
        projection_note := { content := "", new_release_date := none },
        implementation_note := { content := "", new_release_date := none } }).1,
   ((alignment_target_and_knockout
      { minutes_date := some 5, statement_date := none, implementation_date := none,
        projection_date := none, verdict := none, history := [] }
      { statement := { content := "", new_release_date := none },
        minutes := { content := "", new_release_date := none },
        projection_note := { content := "", new_release_date := none },
        implementation_note := { content := "", new_release_date := none } }).2.2
      { max_release_date := 5, minutes_release_date := some 5,
        minutes_content := none, statement_release_date := none,
        statement := none, implementation_note_release_date := none,
        implementation_note := none, projection_note_release_date := none,
        projection_note := none, history := [] }
      true "New Minutes (5)" (by decide)).1.1⟩


/-- C10 (implicit): on a run where no verdict was ever persisted, the last
verdict's minutes and statement dates are read as absent, so an aligned cycle
with a minutes slot — or, with no minutes, a statement slot — always decides
`run`, a present date always differing from an absent one. -/
theorem empty_verdict_history_runs
    (today : Date) (fetched : FetchedAll) (db : DBState)
    (hempty : db.monetary_policies = [])
    (aligned : AlignedData) (run : Bool) (reason : String)
    (h : node_check_logic (node_pull_db_state (node_scrape_and_upsert today fetched db))
        fetched = .checked aligned run reason) :
    verdictMinutesDate
        (node_pull_db_state (node_scrape_and_upsert today fetched db)).verdict = none ∧
    verdictStatementDate
        (node_pull_db_state (node_scrape_and_upsert today fetched db)).verdict = none ∧
    (∀ m, aligned.minutes_release_date = some m → run = true) ∧
    (aligned.minutes_release_date = none →
      ∀ s, aligned.statement_release_date = some s → run = true) := by
  have hverd : (node_pull_db_state (node_scrape_and_upsert today fetched db)).verdict
      = none := by
    simp [node_pull_db_state, node_scrape_and_upsert, hempty,
      get_six_months_fomc_verdict, sortByExecDesc]
  obtain ⟨md, hmax, ha, hr, _⟩ := node_check_logic_checked h
  subst ha
  refine ⟨by rw [hverd]; rfl, by rw [hverd]; rfl, ?_, ?_⟩
  · intro m hm
    rw [hr]
    refine (noveltyRun_iff _ _).mpr (Or.inl ⟨m, hm, ?_⟩)
    rw [hverd]
    simp [verdictMinutesDate]
  · intro hnone s hs
    rw [hr]
    refine (noveltyRun_iff _ _).mpr (Or.inr ⟨hnone, s, hs, ?_⟩)
    rw [hverd]
    simp [verdictStatementDate]

/-- Witness for C10: first run ever (empty verdict table), fetched minutes
dated 5 — the decision is `run`. -/
theorem empty_verdict_history_runs_witness :
    verdictMinutesDate
        (node_pull_db_state (node_scrape_and_upsert 10
          { statement := { content := "", new_release_date := none },
            minutes := { content := "m", new_release_date := some 5 },
            projection_note := { content := "", new_release_date := none },
            implementation_note := { content := "", new_release_date := none } }
          { statements := [], fomc_minutes := [], projection_notes := [],
            implementation_notes := [], monetary_policies := [] })).verdict = none ∧
    true = true :=
  ⟨(empty_verdict_history_runs 10
      { statement := { content := "", new_release_date := none },
        minutes := { content := "m", new_release_date := some 5 },
        projection_note := { content := "", new_release_date := none },
        implementation_note := { content := "", new_release_date := none } }
      { statements := [], fomc_minutes := [], projection_notes := [],
        implementation_notes := [], monetary_policies := [] }
      rfl
      { max_release_date := 5, minutes_release_date := some 5,
        minutes_content := some "m", statement_release_date := none,
        statement := none, implementation_note_release_date := none,
        implementation_note := none, projection_note_release_date := none,
        projection_note := none, history := [] }
      true "New Minutes (5)" (by decide)).1,
   (empty_verdict_history_runs 10
      { statement := { content := "", new_release_date := none },
        minutes := { content := "m", new_release_date := some 5 },
        projection_note := { content := "", new_release_date := none },
        implementation_note := { content := "", new_release_date := none } }
      { statements := [], fomc_minutes := [], projection_notes := [],
        implementation_notes := [], monetary_policies := [] }
      rfl
      { max_release_date := 5, minutes_release_date := some 5,
        minutes_content := some "m", statement_release_date := none,
        statement := none, implementation_note_release_date := none,
        implementation_note := none, projection_note_release_date := none,
        projection_note := none, history := [] }
      true "New Minutes (5)" (by decide)).2.2.1 5 rfl⟩


theorem scrapeTable_future {item : FetchResult} {today d : Date} (t : DocTable)
    (hd : item.new_release_date = some d) (hlt : today < d) :
    scrapeTable item today t = t := by
  have hval : ¬ (is_valid_date d today = true) := by
    simp only [is_valid_date, decide_eq_true_eq]
    exact Nat.not_le_of_gt hlt
  simp only [scrapeTable, hd]
  rw [if_neg hval]

theorem scrapeTable_dates_le {item : FetchResult} {today : Date} {t : DocTable}
    (h : ∀ p ∈ t, p.1 ≤ today) :
    ∀ p ∈ scrapeTable item today t, p.1 ≤ today := by
  intro p hp
  rcases mem_scrapeTable hp with ⟨d, _, hle, rfl⟩ | hp'
  · exact hle
  · exact h p hp'

/-- C6: a fetched document whose resolved release date lies after today is not
written to its table; and provided every already-persisted date is
past-or-present, every date persisted after the run — in particular every
type's latest date — still is. -/
theorem future_dates_never_persisted
    (today : Date) (fetched : FetchedAll) (db : DBState)
    (hs : ∀ p ∈ db.statements, p.1 ≤ today)
    (hm : ∀ p ∈ db.fomc_minutes, p.1 ≤ today)
    (hi : ∀ p ∈ db.implementation_notes, p.1 ≤ today)
    (hp : ∀ p ∈ db.projection_notes, p.1 ≤ today) :
    (∀ d, fetched.statement.new_release_date = some d → today < d →
        (node_scrape_and_upsert today fetched db).statements = db.statements) ∧
    (∀ d, fetched.minutes.new_release_date = some d → today < d →
        (node_scrape_and_upsert today fetched db).fomc_minutes = db.fomc_minutes) ∧
    (∀ d, fetched.implementation_note.new_release_date = some d → today < d →
        (node_scrape_and_upsert today fetched db).implementation_notes
          = db.implementation_notes) ∧
    (∀ d, fetched.projection_note.new_release_date = some d → today < d →
        (node_scrape_and_upsert today fetched db).projection_notes
          = db.projection_notes) ∧
    (∀ p ∈ (node_scrape_and_upsert today fetched db).statements, p.1 ≤ today) ∧
    (∀ p ∈ (node_scrape_and_upsert today fetched db).fomc_minutes, p.1 ≤ today) ∧
    (∀ p ∈ (node_scrape_and_upsert today fetched db).implementation_notes,
        p.1 ≤ today) ∧
    (∀ p ∈ (node_scrape_and_upsert today fetched db).projection_notes, p.1 ≤ today) ∧
    (∀ d, latestDate (node_scrape_and_upsert today fetched db).statements = some d →
        d ≤ today) ∧
    (∀ d, latestDate (node_scrape_and_upsert today fetched db).fomc_minutes = some d →
        d ≤ today) ∧
    (∀ d, latestDate (node_scrape_and_upsert today fetched db).implementation_notes
        = some d → d ≤ today) ∧
    (∀ d, latestDate (node_scrape_and_upsert today fetched db).projection_notes
        = some d → d ≤ today) := by
  refine ⟨?_, ?_, ?_, ?_, ?_, ?_, ?_, ?_, ?_, ?_, ?_, ?_⟩
  · intro d hd hlt
    simp only [node_scrape_and_upsert]
    exact scrapeTable_future _ hd hlt
  · intro d hd hlt
    simp only [node_scrape_and_upsert]
    exact scrapeTable_future _ hd hlt
  · intro d hd hlt
    simp only [node_scrape_and_upsert]
    exact scrapeTable_future _ hd hlt
  · intro d hd hlt
    simp only [node_scrape_and_upsert]
    exact scrapeTable_future _ hd hlt
  · exact scrapeTable_dates_le hs
  · exact scrapeTable_dates_le hm
  · exact scrapeTable_dates_le hi
  · exact scrapeTable_dates_le hp
  · exact fun d hd => latestDate_le hd (scrapeTable_dates_le hs)
  · exact fun d hd => latestDate_le hd (scrapeTable_dates_le hm)
  · exact fun d hd => latestDate_le hd (scrapeTable_dates_le hi)
  · exact fun d hd => latestDate_le hd (scrapeTable_dates_le hp)

/-- Witness for C6: minutes fetched with the future date 99 (today = 10) are
not written to the empty minutes table. -/
theorem future_dates_never_persisted_witness :
    (∀ p ∈ ([] : DocTable), p.1 ≤ 10) ∧
    (node_scrape_and_upsert 10
        { statement := { content := "", new_release_date := none },
          minutes := { content := "m", new_release_date := some 99 },
          projection_note := { content := "", new_release_date := none },
          implementation_note := { content := "", new_release_date := none } }
        { statements := [], fomc_minutes := [], projection_notes := [],
          implementation_notes := [], monetary_policies := [] }).fomc_minutes
      = [] :=
  ⟨by simp,
   (future_dates_never_persisted 10
      { statement := { content := "", new_release_date := none },
        minutes := { content := "m", new_release_date := some 99 },
        projection_note := { content := "", new_release_date := none },
        implementation_note := { content := "", new_release_date := none } }
      { statements := [], fomc_minutes := [], projection_notes := [],
        implementation_notes := [], monetary_policies := [] }
      (by simp) (by simp) (by simp) (by simp)).2.1 99 rfl (by decide)⟩


/-- C3 counterexample: an aligned cycle with minutes dated 5 but no statement
slot is *not* committed under the minutes date — the commit node leaves the
verdict table untouched and reports the missing-statement-date error, contrary
to the claimed statement-then-minutes anchor fallback. -/
theorem commit_no_minutes_fallback_cex :
    node_save_results true 10 (some "c")
        { max_release_date := 5, minutes_release_date := some 5,
          minutes_content := some "m", statement_release_date := none,
          statement := none, implementation_note_release_date := none,
          implementation_note := none, projection_note_release_date := none,
          projection_note := none, history := [] }
        []
      = { verdicts := [],
          final_output := some { status := "error", message := "Missing statement date" } } :=
  rfl

/-- C3 amended: the committed verdict's anchor date is always the aligned
statement release date; the run fails with the missing-statement-date error iff
that date is absent — even when a minutes date is present — and when it is
present the row under that anchor is fully replaced (the new row is looked up,
all other anchors untouched) and success is reported. -/
theorem commit_anchor_is_statement_date
    (today : Date) (content : String) (aligned : AlignedData)
    (verdicts : VerdictTable) :
    (∀ s, aligned.statement_release_date = some s →
        (node_save_results true today (some content) aligned verdicts).verdicts
          = upsertVerdict
              { statement_date := s, execution_date := today,
                implementation_date := aligned.implementation_note_release_date,
                projection_date := aligned.projection_note_release_date,
                minutes_date := aligned.minutes_release_date,
                content := content } verdicts ∧
        lookupVerdict s
            (node_save_results true today (some content) aligned verdicts).verdicts
          = some
              { statement_date := s, execution_date := today,
                implementation_date := aligned.implementation_note_release_date,
                projection_date := aligned.projection_note_release_date,
                minutes_date := aligned.minutes_release_date,
                content := content } ∧
        (∀ k, k ≠ s →
          lookupVerdict k
              (node_save_results true today (some content) aligned verdicts).verdicts
            = lookupVerdict k verdicts) ∧
        (node_save_results true today (some content) aligned verdicts).final_output
          = some { status := "success", message := "Analysis saved" }) ∧
    (aligned.statement_release_date = none →
        (node_save_results true today (some content) aligned verdicts).verdicts
          = verdicts ∧
        (node_save_results true today (some content) aligned verdicts).final_output
          = some { status := "error", message := "Missing statement date" }) := by
  constructor
  · intro s hsd
    have hN : node_save_results true today (some content) aligned verdicts
        = { verdicts :=
              upsertVerdict
                { statement_date := s, execution_date := today,
                  implementation_date := aligned.implementation_note_release_date,
                  projection_date := aligned.projection_note_release_date,
                  minutes_date := aligned.minutes_release_date,
                  content := content } verdicts,
            final_output := some { status := "success", message := "Analysis saved" } } := by
      simp [node_save_results, hsd]
    rw [hN]
    exact ⟨rfl,
           lookupVerdict_upsert_self
             { statement_date := s, execution_date := today,
               implementation_date := aligned.implementation_note_release_date,
               projection_date := aligned.projection_note_release_date,
               minutes_date := aligned.minutes_release_date,
               content := content } verdicts,
           fun k hk => lookupVerdict_upsert_other hk verdicts, rfl⟩
  · intro hsd
    have hN : node_save_results true today (some content) aligned verdicts
        = { verdicts := verdicts,
            final_output :=
              some { status := "error", message := "Missing statement date" } } := by
      simp [node_save_results, hsd]
    rw [hN]
    exact ⟨rfl, rfl⟩

/-- Witness for C3 (amended): committing with statement date 5 over a prior
verdict under the same anchor fully replaces that row; committing with no
statement date errors out. -/
theorem commit_anchor_is_statement_date_witness :
    lookupVerdict 5
        (node_save_results true 10 (some "new")
          { max_release_date := 5, minutes_release_date := none,
            minutes_content := none, statement_release_date := some 5,
            statement := some "s", implementation_note_release_date := none,
            implementation_note := none, projection_note_release_date := none,
            projection_note := none, history := [] }
          [{ statement_date := 5, execution_date := 1, implementation_date := some 3,
             projection_date := some 3, minutes_date := some 4,
             content := "old" }]).verdicts
      = some { statement_date := 5, execution_date := 10,
               implementation_date := none, projection_date := none,
               minutes_date := none, content := "new" } ∧
    (node_save_results true 10 (some "c")
        { max_release_date := 5, minutes_release_date := some 5,
          minutes_content := some "m", statement_release_date := none,
          statement := none, implementation_note_release_date := none,
          implementation_note := none, projection_note_release_date := none,
          projection_note := none, history := [] } []).verdicts = [] :=
  ⟨((commit_anchor_is_statement_date 10 "new"
      { max_release_date := 5, minutes_release_date := none,
        minutes_content := none, statement_release_date := some 5,
        statement := some "s", implementation_note_release_date := none,
        implementation_note := none, projection_note_release_date := none,
        projection_note := none, history := [] }
      [{ statement_date := 5, execution_date := 1, implementation_date := some 3,
         projection_date := some 3, minutes_date := some 4,
         content := "old" }]).1 5 rfl).2.1,
   ((commit_anchor_is_statement_date 10 "c"
      { max_release_date := 5, minutes_release_date := some 5,
        minutes_content := some "m", statement_release_date := none,
        statement := none, implementation_note_release_date := none,
        implementation_note := none, projection_note_release_date := none,
        projection_note := none, history := [] } []).2 rfl).1⟩

/-- C4 (code-bug evidence): with the verdict upsert failing (`upsertOk =
false`) on a cycle whose aligned statement date is present, the commit node
still reports final status `success` with message `Analysis saved`, while the
table keeps its pre-run contents — the run's final status is not `error`. -/
theorem verdict_write_failure_still_reports_success :
    (node_save_results false 10 (some "c")
        { max_release_date := 5, minutes_release_date := none,
          minutes_content := none, statement_release_date := some 5,
          statement := some "s", implementation_note_release_date := none,
          implementation_note := none, projection_note_release_date := none,
          projection_note := none, history := [] } []).final_output
      = some { status := "success", message := "Analysis saved" } ∧
    (node_save_results false 10 (some "c")
        { max_release_date := 5, minutes_release_date := none,
          minutes_content := none, statement_release_date := some 5,
          statement := some "s", implementation_note_release_date := none,
          implementation_note := none, projection_note_release_date := none,
          projection_note := none, history := [] } []).verdicts = [] :=
  ⟨rfl, rfl⟩


/-- C7 counterexample: with a verdict anchored at 200 but executed at 100 and
one anchored at 100 executed at 200, the history query returns them ordered by
execution date — anchor dates [100, 200], which is not anchor-descending. -/
theorem history_not_anchor_ordered_cex :
    get_six_months_fomc_verdict
        [{ statement_date := 200, execution_date := 100, implementation_date := none,
           projection_date := none, minutes_date := none, content := "a" },
         { statement_date := 100, execution_date := 200, implementation_date := none,
           projection_date := none, minutes_date := none, content := "b" }]
      = [{ statement_date := 100, execution_date := 200, implementation_date := none,
           projection_date := none, minutes_date := none, content := "b" },
         { statement_date := 200, execution_date := 100, implementation_date := none,
           projection_date := none, minutes_date := none, content := "a" }] ∧
    ¬ List.Pairwise (fun a b : VerdictRow => b.statement_date ≤ a.statement_date)
        (get_six_months_fomc_verdict
          [{ statement_date := 200, execution_date := 100, implementation_date := none,
             projection_date := none, minutes_date := none, content := "a" },
           { statement_date := 100, execution_date := 200, implementation_date := none,
             projection_date := none, minutes_date := none, content := "b" }]) := by
  constructor
  · rfl
  · intro hpw
    have := (List.pairwise_cons.mp hpw).1
    have h2 := this
        { statement_date := 200, execution_date := 100, implementation_date := none,
          projection_date := none, minutes_date := none, content := "a" }
        (by simp [get_six_months_fomc_verdict, sortByExecDesc, insertByExecDesc])
    exact absurd h2 (by decide)

/-- C7 amended: the history handed to the analysis step is at most six
verdicts, the most recent by *execution* date in descending execution-date
order (every omitted verdict executed no later than every kept one), and each
is stripped of its `execution_date` field before being passed to the
analysis invoker. -/
theorem history_six_most_recent_by_execution (t : VerdictTable)
    (llm : List HistoryItem → AlignedData → Option String) (aligned : AlignedData) :
    (get_six_months_fomc_verdict t).length ≤ 6 ∧
    List.Pairwise (fun a b : VerdictRow => b.execution_date ≤ a.execution_date)
      (get_six_months_fomc_verdict t) ∧
    List.Perm t (get_six_months_fomc_verdict t ++ (sortByExecDesc t).drop 6) ∧
    (∀ v ∈ get_six_months_fomc_verdict t, ∀ w ∈ (sortByExecDesc t).drop 6,
        w.execution_date ≤ v.execution_date) ∧
    node_run_analysis llm aligned = llm (clean_history aligned.history) aligned ∧
    clean_history aligned.history = aligned.history.map stripExecutionDate := by
  have hsorted := pairwise_sortByExecDesc t
  have hsplit : sortByExecDesc t
      = get_six_months_fomc_verdict t ++ (sortByExecDesc t).drop 6 := by
    simp [get_six_months_fomc_verdict]
  have happ := List.pairwise_append.mp (hsplit ▸ hsorted)
  refine ⟨?_, happ.1, ?_, happ.2.2, rfl, rfl⟩
  · exact List.length_take_le 6 (sortByExecDesc t)
  · exact ((sortByExecDesc_perm t).symm).trans (hsplit ▸ List.Perm.refl _)


theorem slot_shape (pd : Option Date) (item : FetchResult) (md : Date) :
    ((if pd = some md then pd else none) = none →
       (if pd = some md then get_content_from_fetch item md else none) = none) ∧
    (∀ d, (if pd = some md then pd else none) = some d → d = md ∧ pd = some d) ∧
    (pd = some md → (if pd = some md then pd else none) = some md) ∧
    (∀ c, (if pd = some md then get_content_from_fetch item md else none) = some c →
       (if pd = some md then pd else none) = some md ∧
       item.new_release_date = some md ∧ c = item.content) ∧
    (pd = some md → item.new_release_date = some md →
       (if pd = some md then get_content_from_fetch item md else none)
         = some item.content) := by
  by_cases hc : pd = some md
  · refine ⟨?_, ?_, ?_, ?_, ?_⟩
    · intro hrd
      rw [if_pos hc, hc] at hrd
      cases hrd
    · intro d hd
      rw [if_pos hc, hc] at hd
      injection hd with hd
      subst hd
      exact ⟨rfl, hc⟩
    · intro _
      rw [if_pos hc, hc]
    · intro c hcc
      rw [if_pos hc] at hcc
      unfold get_content_from_fetch at hcc
      by_cases hf : item.new_release_date = some md
      · rw [if_pos hf] at hcc
        injection hcc with hcc
        exact ⟨by rw [if_pos hc, hc], hf, hcc.symm⟩
      · rw [if_neg hf] at hcc
        cases hcc
    · intro _ hf
      rw [if_pos hc]
      unfold get_content_from_fetch
      rw [if_pos hf]
  · refine ⟨fun _ => by rw [if_neg hc], ?_, ?_, ?_, ?_⟩
    · intro d hd
      rw [if_neg hc] at hd
      cases hd
    · intro hcc
      exact absurd hcc hc
    · intro c hcc
      rw [if_neg hc] at hcc
      cases hcc
    · intro hcc _
      exact absurd hcc hc

/-- C8 counterexample: with the statement's stored latest date 5 being the
target but the fresh fetch carrying no matching document, the aligned cycle's
statement slot is `(release_date = some 5, body = none)` — the target date
paired with an absent body, a shape the claim says never occurs. -/
theorem aligned_slot_date_without_body_cex :
    node_check_logic
        { minutes_date := none, statement_date := some 5, implementation_date := none,
          projection_date := none, verdict := none, history := [] }
        { statement := { content := "", new_release_date := none },
          minutes := { content := "", new_release_date := none },
          projection_note := { content := "", new_release_date := none },
          implementation_note := { content := "", new_release_date := none } }
      = .checked
          { max_release_date := 5, minutes_release_date := none,
            minutes_content := none, statement_release_date := some 5,
            statement := none, implementation_note_release_date := none,
            implementation_note := none, projection_note_release_date := none,
            projection_note := none, history := [] }
          true "New Statement (5)" := by
  decide

/-- C8 amended: in every aligned cycle each slot's release date is the target
date exactly when that type's stored latest date equals the target (both
directions proven), and the slot's body is present exactly when additionally
the freshly fetched document carries the target date, in which case the body
is that fetch's content (both directions proven); a slot with an absent date
always has an absent body, but a slot may carry the target date with an
absent body when the fetch did not return the document. -/
theorem aligned_slot_shapes (pull : DBPull) (fetched : FetchedAll)
    (aligned : AlignedData) (run : Bool) (reason : String)
    (h : node_check_logic pull fetched = .checked aligned run reason) :
    ((aligned.statement_release_date = none → aligned.statement = none) ∧
     (∀ d, aligned.statement_release_date = some d →
        d = aligned.max_release_date ∧ pull.statement_date = some d) ∧
     (pull.statement_date = some aligned.max_release_date →
        aligned.statement_release_date = some aligned.max_release_date) ∧
     (∀ c, aligned.statement = some c →
        aligned.statement_release_date = some aligned.max_release_date ∧
        fetched.statement.new_release_date = some aligned.max_release_date ∧
        c = fetched.statement.content) ∧
     (pull.statement_date = some aligned.max_release_date →
        fetched.statement.new_release_date = some aligned.max_release_date →
        aligned.statement = some fetched.statement.content)) ∧
    ((aligned.minutes_release_date = none → aligned.minutes_content = none) ∧
     (∀ d, aligned.minutes_release_date = some d →
        d = aligned.max_release_date ∧ pull.minutes_date = some d) ∧
     (pull.minutes_date = some aligned.max_release_date →
        aligned.minutes_release_date = some aligned.max_release_date) ∧
     (∀ c, aligned.minutes_content = some c →
        aligned.minutes_release_date = some aligned.max_release_date ∧
        fetched.minutes.new_release_date = some aligned.max_release_date ∧
        c = fetched.minutes.content) ∧
     (pull.minutes_date = some aligned.max_release_date →
        fetched.minutes.new_release_date = some aligned.max_release_date →
        aligned.minutes_content = some fetched.minutes.content)) ∧
    ((aligned.implementation_note_release_date = none →
        aligned.implementation_note = none) ∧
     (∀ d, aligned.implementation_note_release_date = some d →
        d = aligned.max_release_date ∧ pull.implementation_date = some d) ∧
     (pull.implementation_date = some aligned.max_release_date →
        aligned.implementation_note_release_date
          = some aligned.max_release_date) ∧
     (∀ c, aligned.implementation_note = some c →
        aligned.implementation_note_release_date = some aligned.max_release_date ∧
        fetched.implementation_note.new_release_date
          = some aligned.max_release_date ∧
        c = fetched.implementation_note.content) ∧
     (pull.implementation_date = some aligned.max_release_date →
        fetched.implementation_note.new_release_date
          = some aligned.max_release_date →
        aligned.implementation_note = some fetched.implementation_note.content)) ∧
    ((aligned.projection_note_release_date = none → aligned.projection_note = none) ∧
     (∀ d, aligned.projection_note_release_date = some d →
        d = aligned.max_release_date ∧ pull.projection_date = some d) ∧
     (pull.projection_date = some aligned.max_release_date →
        aligned.projection_note_release_date = some aligned.max_release_date) ∧
     (∀ c, aligned.projection_note = some c →
        aligned.projection_note_release_date = some aligned.max_release_date ∧
        fetched.projection_note.new_release_date = some aligned.max_release_date ∧
        c = fetched.projection_note.content) ∧
     (pull.projection_date = some aligned.max_release_date →
        fetched.projection_note.new_release_date = some aligned.max_release_date →
        aligned.projection_note = some fetched.projection_note.content)) := by
  obtain ⟨md, hmax, ha, _, _⟩ := node_check_logic_checked h
  subst ha
  exact ⟨slot_shape pull.statement_date fetched.statement md,
         slot_shape pull.minutes_date fetched.minutes md,
         slot_shape pull.implementation_date fetched.implementation_note md,
         slot_shape pull.projection_date fetched.projection_note md⟩

/-- Witness for C8 (amended): with the minutes stored latest date equal to the
target and the fetch carrying the target date, the minutes slot holds both the
target date and the fetched body. -/
theorem aligned_slot_shapes_witness :
    (some 5 : Option Date) = some 5 ∧ (some "m" : Option String) = some "m" :=
  ⟨((aligned_slot_shapes
      { minutes_date := some 5, statement_date := none, implementation_date := none,
        projection_date := none, verdict := none, history := [] }
      { statement := { content := "", new_release_date := none },
        minutes := { content := "m", new_release_date := some 5 },
        projection_note := { content := "", new_release_date := none },
        implementation_note := { content := "", new_release_date := none } }
      { max_release_date := 5, minutes_release_date := some 5,
        minutes_content := some "m", statement_release_date := none,
        statement := none, implementation_note_release_date := none,
        implementation_note := none, projection_note_release_date := none,
        projection_note := none, history := [] }
      true "New Minutes (5)" (by decide)).2.1).2.2.1 rfl,
   ((aligned_slot_shapes
      { minutes_date := some 5, statement_date := none, implementation_date := none,
        projection_date := none, verdict := none, history := [] }
      { statement := { content := "", new_release_date := none },
        minutes := { content := "m", new_release_date := some 5 },
        projection_note := { content := "", new_release_date := none },
        implementation_note := { content := "", new_release_date := none } }
      { max_release_date := 5, minutes_release_date := some 5,
        minutes_content := some "m", statement_release_date := none,
        statement := none, implementation_note_release_date := none,
        implementation_note := none, projection_note_release_date := none,
        projection_note := none, history := [] }
      true "New Minutes (5)" (by decide)).2.1).2.2.2.2 rfl rfl⟩


/-- C5 counterexample: a minutes-only cycle (no statement at the target date)
decides `run`, fails at commit with the missing-statement-date error, and
persists no verdict — so a second run with identical source responses decides
`run` again instead of `skip`. -/
theorem second_identical_run_not_skip_cex :
    (runCycle (fun _ _ => some "c") true 10
        { statement := { content := "", new_release_date := none },
          minutes := { content := "m", new_release_date := some 5 },
          projection_note := { content := "", new_release_date := none },
          implementation_note := { content := "", new_release_date := none } }
        (runCycle (fun _ _ => some "c") true 10
          { statement := { content := "", new_release_date := none },
            minutes := { content := "m", new_release_date := some 5 },
            projection_note := { content := "", new_release_date := none },
            implementation_note := { content := "", new_release_date := none } }
          { statements := [], fomc_minutes := [], projection_notes := [],
            implementation_notes := [], monetary_policies := [] }).db).should_run
      = true := by
  decide

theorem node_scrape_idem_mp (today : Date) (fetched : FetchedAll) (db : DBState)
    (mp : VerdictTable) :
    node_scrape_and_upsert today fetched
        { node_scrape_and_upsert today fetched db with monetary_policies := mp }
      = { node_scrape_and_upsert today fetched db with monetary_policies := mp } := by
  simp [node_scrape_and_upsert, scrapeTable_idem]

theorem runCycle_skip_of_stable
    {llm : List HistoryItem → AlignedData → Option String} {upsertOk : Bool}
    {today : Date} {fetched : FetchedAll} {dbV : DBState}
    (hstable : node_scrape_and_upsert today fetched dbV = dbV)
    {X : AlignedData} {R : String}
    (hchk : node_check_logic (node_pull_db_state dbV) fetched = .checked X false R) :
    runCycle llm upsertOk today fetched dbV
      = { db := dbV, should_run := false,
          final_output := { status := "skipped", message := "Database up to date" } } := by
  simp only [runCycle]
  rw [hstable, hchk]
  rfl

theorem check_skips_after_commit
    {pull : DBPull} {fetched : FetchedAll} {md : Date} {row : VerdictRow}
    (hmax : maxOfList (validDates pull.minutes_date pull.statement_date
        pull.implementation_date pull.projection_date) = some md)
    (hverd : pull.verdict = some row)
    (hmin : row.minutes_date = (alignData pull fetched md).minutes_release_date)
    (hst : (alignData pull fetched md).statement_release_date
        = some row.statement_date) :
    node_check_logic pull fetched
      = .checked (alignData pull fetched md) false
          (noveltyReason (alignData pull fetched md) pull.verdict) := by
  have hrun : noveltyRun (alignData pull fetched md) pull.verdict = false := by
    rw [hverd]
    unfold noveltyRun
    cases hm : (alignData pull fetched md).minutes_release_date with
    | some m =>
        rw [hm] at hmin
        have hvm : verdictMinutesDate (some row) = some m := hmin
        rw [hvm]
        simp
    | none =>
        cases hs : (alignData pull fetched md).statement_release_date with
        | none =>
            rw [hs] at hst
        | some sd =>
            rw [hs] at hst
            injection hst with hss
            have hvs : verdictStatementDate (some row) = some sd := by
              show some row.statement_date = some sd
              rw [hss]
            rw [hvs]
            simp
  unfold node_check_logic
  rw [hmax]
  show CheckResult.checked (alignData pull fetched md)
      (noveltyRun (alignData pull fetched md) pull.verdict)
      (noveltyReason (alignData pull fetched md) pull.verdict)
    = CheckResult.checked (alignData pull fetched md) false
        (noveltyReason (alignData pull fetched md) pull.verdict)
  rw [hrun]


theorem pull_verdict_fresh {db : DBState} {row : VerdictRow}
    (h : ∀ v ∈ db.monetary_policies, v.execution_date < row.execution_date) :
    (node_pull_db_state
        { db with monetary_policies := upsertVerdict row db.monetary_policies }).verdict
      = some row := by
  show ((sortByExecDesc (upsertVerdict row db.monetary_policies)).take 6).head?
      = some row
  rw [head?_take_six]
  exact head_sort_upsert_of_lt h

/-- C5 amended: each document upsert is idempotent — repeating it with an
identical key and body leaves the table unchanged — and whenever the first run
commits (its aligned cycle carries a statement date, the analysis succeeds,
and every previously stored verdict has an earlier execution date), a second
run with identical source responses leaves the storage state unchanged and
decides `skip`.  (When the first run cannot commit — e.g. a minutes-only cycle
failing with the missing-statement-date error — the second identical run
decides `run` again, as the counterexample shows.) -/
theorem upsert_and_cycle_idempotence
    (llm : List HistoryItem → AlignedData → Option String)
    (today : Date) (fetched : FetchedAll) (db0 : DBState)
    (aligned : AlignedData) (reason : String) (s : Date) (content : String)
    (hcheck : node_check_logic
        (node_pull_db_state (node_scrape_and_upsert today fetched db0)) fetched
      = .checked aligned true reason)
    (hstmt : aligned.statement_release_date = some s)
    (hllm : node_run_analysis llm aligned = some content)
    (hexec : ∀ v ∈ db0.monetary_policies, v.execution_date < today) :
    (∀ (t : DocTable) (d : Date) (b : String),
        upsertDoc d b (upsertDoc d b t) = upsertDoc d b t) ∧
    runCycle llm true today fetched (runCycle llm true today fetched db0).db
      = { db := (runCycle llm true today fetched db0).db,
          should_run := false,
          final_output := { status := "skipped", message := "Database up to date" } } := by
  obtain ⟨md, hmax, ha, _, _⟩ := node_check_logic_checked hcheck
  subst ha
  refine ⟨fun t d b => upsertDoc_idem d b t, ?_⟩
  have hsave : node_save_results true today (some content)
      (alignData (node_pull_db_state (node_scrape_and_upsert today fetched db0))
        fetched md)
      (node_scrape_and_upsert today fetched db0).monetary_policies
    = { verdicts := upsertVerdict
          { statement_date := s, execution_date := today,
            implementation_date := (alignData (node_pull_db_state
                (node_scrape_and_upsert today fetched db0))
                fetched md).implementation_note_release_date,
            projection_date := (alignData (node_pull_db_state
                (node_scrape_and_upsert today fetched db0))
                fetched md).projection_note_release_date,
            minutes_date := (alignData (node_pull_db_state
                (node_scrape_and_upsert today fetched db0))
                fetched md).minutes_release_date,
            content := content }
          (node_scrape_and_upsert today fetched db0).monetary_policies,
        final_output := some { status := "success", message := "Analysis saved" } } := by
    simp [node_save_results, hstmt]
  have hr1 : runCycle llm true today fetched db0
      = { db := { node_scrape_and_upsert today fetched db0 with
            monetary_policies := upsertVerdict
              { statement_date := s, execution_date := today,
                implementation_date := (alignData (node_pull_db_state
                    (node_scrape_and_upsert today fetched db0))
                    fetched md).implementation_note_release_date,
                projection_date := (alignData (node_pull_db_state
                    (node_scrape_and_upsert today fetched db0))
                    fetched md).projection_note_release_date,
                minutes_date := (alignData (node_pull_db_state
                    (node_scrape_and_upsert today fetched db0))
                    fetched md).minutes_release_date,
                content := content }
              (node_scrape_and_upsert today fetched db0).monetary_policies },
          should_run := true,
          final_output := { status := "success", message := "Analysis saved" } } := by
    simp only [runCycle]
    split
    · next hnd =>
        rw [hcheck] at hnd
        cases hnd
    · next A run rsn hchk2 =>
        rw [hcheck] at hchk2
        injection hchk2 with h1 h2 h3
        subst h1
        subst h2
        rw [if_pos rfl]
        split
        · next hnone =>
            rw [hllm] at hnone
            cases hnone
        · next c hsome =>
            rw [hllm] at hsome
            injection hsome with hc
            subst hc
            rw [hsave]
            rfl
  rw [hr1]
  apply runCycle_skip_of_stable
  · exact node_scrape_idem_mp today fetched db0 _
  · apply check_skips_after_commit
    · exact hmax
    · exact pull_verdict_fresh hexec
    · rfl
    · exact hstmt


/-- Witness for C5 (amended): statement-only cycle dated 5, empty store, first
run commits; the second identical run leaves storage unchanged and skips. -/
theorem upsert_and_cycle_idempotence_witness :
    runCycle (fun _ _ => some "c") true 10
        { statement := { content := "s", new_release_date := some 5 },
          minutes := { content := "", new_release_date := none },
          projection_note := { content := "", new_release_date := none },
          implementation_note := { content := "", new_release_date := none } }
        (runCycle (fun _ _ => some "c") true 10
          { statement := { content := "s", new_release_date := some 5 },
            minutes := { content := "", new_release_date := none },
            projection_note := { content := "", new_release_date := none },
            implementation_note := { content := "", new_release_date := none } }
          { statements := [], fomc_minutes := [], projection_notes := [],
            implementation_notes := [], monetary_policies := [] }).db
      = { db := (runCycle (fun _ _ => some "c") true 10
            { statement := { content := "s", new_release_date := some 5 },
              minutes := { content := "", new_release_date := none },
              projection_note := { content := "", new_release_date := none },
              implementation_note := { content := "", new_release_date := none } }
            { statements := [], fomc_minutes := [], projection_notes := [],
              implementation_notes := [], monetary_policies := [] }).db,
          should_run := false,
          final_output := { status := "skipped", message := "Database up to date" } } :=
  (upsert_and_cycle_idempotence (fun _ _ => some "c") 10
    { statement := { content := "s", new_release_date := some 5 },
      minutes := { content := "", new_release_date := none },
      projection_note := { content := "", new_release_date := none },
      implementation_note := { content := "", new_release_date := none } }
    { statements := [], fomc_minutes := [], projection_notes := [],
      implementation_notes := [], monetary_policies := [] }
    { max_release_date := 5, minutes_release_date := none,
      minutes_content := none, statement_release_date := some 5,
      statement := some "s", implementation_note_release_date := none,
      implementation_note := none, projection_note_release_date := none,
      projection_note := none, history := [] }
    "New Statement (5)" 5 "c" (by decide) rfl rfl (by simp)).2

end FOMC
